import Mathlib

/-!
Shallow embedding of the wifi-cli program (src/main.rs).

Conventions used throughout:
* Rust `u8` values are modelled as `Nat` reduced `% 256` at every operation
  that can overflow, i.e. release-mode wrapping semantics (debug builds would
  panic at the same spots; each theorem's comment notes this where relevant).
* A Rust panic (byte-slice out of bounds, `Vec` index out of bounds, `unwrap`
  on an `Err`) is modelled as `none` (for `Option`-valued functions) or as
  `RunResult.fatal` (for command-running functions); it is distinct from a
  returned `Err`, which is modelled as `RunResult.err` / the error component.
* External effects (the terminal, the spawned `nmcli` processes, stdin) are
  passed in as explicit arguments: a scan result is the decoded stdout text of
  the listing command, a `CmdOutput` is the captured output of a spawned
  process, and terminal I/O success/failure is an explicit `TermOps` oracle.
-/

/-- Split a character list at every newline, keeping empty pieces
(`"a\nb"` gives `[a, b]`, `"a\n"` gives `[a, []]`, `""` gives `[[]]`). -/
def splitNL : List Char → List (List Char)
  | [] => [[]]
  | c :: rest =>
    if c = '\n' then [] :: splitNL rest
    else
      match splitNL rest with
      | [] => [[c]]
      | l :: ls => (c :: l) :: ls

/-- Drop one trailing carriage return from a piece, as Rust `str::lines`
does to the text standing before each newline. -/
def stripCR (l : List Char) : List Char :=
  if l.getLast? = some '\r' then l.dropLast else l

/-- Strip a trailing CR from every piece that was followed by a newline,
i.e. from all but the last piece. -/
def stripCRInit : List (List Char) → List (List Char)
  | [] => []
  | [l] => [l]
  | l :: ls => stripCR l :: stripCRInit ls

/-- Rust `str::lines`: split on `'\n'`, a final trailing newline produces no
empty last line, and a `'\r'` standing right before a `'\n'` is stripped. -/
def rustLines (s : String) : List String :=
  match s.data with
  | [] => []
  | cs =>
    if cs.getLast? = some '\n' then
      (((splitNL cs).dropLast).map stripCR).map String.mk
    else
      (stripCRInit (splitNL cs)).map String.mk

/-- UTF-8 encoded size in bytes of one character (Rust `char::len_utf8`). -/
def charSize (c : Char) : Nat :=
  if c.toNat < 0x80 then 1
  else if c.toNat < 0x800 then 2
  else if c.toNat < 0x10000 then 3
  else 4

/-- UTF-8 byte length of a character list (Rust `str::len`). -/
def utf8Len : List Char → Nat
  | [] => 0
  | c :: cs => charSize c + utf8Len cs

/-- Rust byte slicing `&l[n..]` on a UTF-8 string: `none` models the panic
raised when `n` is past the end of the string or not on a character
boundary. -/
def byteDrop : List Char → Nat → Option (List Char)
  | cs, 0 => some cs
  | [], _ + 1 => none
  | c :: cs, n + 1 =>
    if charSize c ≤ n + 1 then byteDrop cs (n + 1 - charSize c) else none

/-- The per-line body of `get_ssids`: `l[8..].split(' ').next().expect(..)`.
On a Rust `str`, `split(' ').next()` is always `Some` (the prefix standing
before the first space, possibly empty), so the `expect` never fires; the one
panic is the byte slice `l[8..]`, modelled by `none`. -/
def parse_ssid (l : String) : Option String :=
  match byteDrop l.data 8 with
  | none => none
  | some rest => some (String.mk (rest.takeWhile (fun c => c != ' ')))

/-- Collecting map where each element may panic: models
`.map(..).collect::<Vec<_>>()` whose closure can panic (`none`). -/
def mapOpt (f : String → Option String) : List String → Option (List String)
  | [] => some []
  | a :: l =>
    match f a, mapOpt f l with
    | some b, some bs => some (b :: bs)
    | _, _ => none

/-- `fn get_ssids`: skip the header line, parse each remaining line.
`none` models a panic while parsing some line. -/
def get_ssids (wifi_list : String) : Option (List String) :=
  mapOpt parse_ssid ((rustLines wifi_list).drop 1)

/-- The `u8` fold counting data lines in the Down-arrow handler:
`lines().skip(1).fold(0, |acc, _| acc + 1)` with `acc : u8`, so every
increment wraps mod 256. -/
def countU8 (ls : List String) : Nat :=
  ls.foldl (fun acc _ => (acc + 1) % 256) 0

/-- The Down-arrow bound `... .fold(0, |acc, _| acc + 1) - 1 as u8`:
wrapping subtraction of 1 on `u8` (debug builds panic when the count is 0). -/
def down_bound (wifi_list : String) : Nat :=
  (countU8 ((rustLines wifi_list).drop 1) + 255) % 256

/-- Up-arrow update: `if pos > 0 { pos - 1 } else { 0 }`. -/
def move_up (pos : Nat) : Nat := if pos > 0 then pos - 1 else 0

/-- Down-arrow update as a function of the data-line count `n`:
`(pos + 1).clamp(0, bound)` on `u8`, where `bound` is the wrapped `n - 1`.
For a `u8`, `clamp(0, bound)` is `min _ bound`. -/
def move_down (pos n : Nat) : Nat :=
  Nat.min ((pos + 1) % 256) ((n % 256 + 255) % 256)

/-- The subset of termion keys the program can receive. -/
inductive Key where
  | Up
  | Down
  | Esc
  | Char (c : Char)
  | Other
deriving DecidableEq

/-- The subset of termion events the program can receive. -/
inductive Event where
  | Key (k : Key)
  | Other
deriving DecidableEq

/-- `enum Response`. -/
inductive Response where
  | Continue
  | Select
  | Quit
deriving DecidableEq

/-- `fn match_evt` (the rendering side effects on `stdout` are not part of the
returned value in the source either): returns the `Response` and the new value
of `selector_pos`. -/
def match_evt (evt : Event) (wifi_list : String) (selector_pos : Nat) :
    Response × Nat :=
  match evt with
  | Event.Key Key.Up => (Response.Continue, move_up selector_pos)
  | Event.Key Key.Down =>
      (Response.Continue, Nat.min ((selector_pos + 1) % 256) (down_bound wifi_list))
  | Event.Key (Key.Char c) =>
      if c = 'r' then (Response.Continue, selector_pos)
      else if c = 'q' then (Response.Quit, selector_pos)
      else if c = '\n' then (Response.Select, selector_pos)
      else (Response.Continue, selector_pos)
  | _ => (Response.Continue, selector_pos)

/-- The mutable locals of `fn main`'s loop. `phase` is the source's integer
`state` (0 = browsing, 1 = entering password, 2 = connecting); `done` records
that the loop has been left by `break`. -/
structure MainState where
  selector_pos : Nat
  wifi_list : String
  phase : Nat
  pwd : String
  ssid : String
  done : Bool
deriving DecidableEq

/-- The state after the initial `refresh` of `fn main`: index 0, the first
scan's text on screen, phase 0, empty password and ssid. -/
def initState (scan : String) : MainState :=
  { selector_pos := 0, wifi_list := scan, phase := 0, pwd := "", ssid := "",
    done := false }

/-- One iteration of `fn main`'s loop, driven by the next input event `ev`
and by the text `scan` that the external listing command would return if a
`refresh` is performed in this iteration.  `none` models a panic:
in phase 0 a `Select` response evaluates
`get_ssids(&wifi_list)[selector_pos as usize]`, which panics if `get_ssids`
panics or if the index is out of bounds of the returned `Vec`.
Phase 2 runs `authenticate` (modelled separately), renders its outcome and
breaks; only the `break` is reflected in the state. -/
def step (s : MainState) (ev : Event) (scan : String) : Option MainState :=
  if s.done then some s
  else if s.phase = 0 then
    match match_evt ev s.wifi_list s.selector_pos with
    | (Response.Continue, pos) =>
        some { s with selector_pos := pos, wifi_list := scan }
    | (Response.Select, pos) =>
        match get_ssids s.wifi_list with
        | none => none
        | some ssids =>
            if h : pos < ssids.length then
              some { s with selector_pos := pos, phase := 1,
                            ssid := ssids.get ⟨pos, h⟩ }
            else none
    | (Response.Quit, pos) => some { s with selector_pos := pos, done := true }
  else if s.phase = 1 then
    match ev with
    | Event.Key Key.Esc => some { s with done := true }
    | Event.Key (Key.Char c) =>
        if c = '\n' then some { s with phase := 2 }
        else some { s with pwd := s.pwd.push c }
    | _ => some s
  else some { s with done := true }

/-- Events the Browsing vocabulary does not recognize: everything other than
Up, Down, `'r'`, `'q'` and Enter. -/
def browse_unrecognized (ev : Event) : Bool :=
  match ev with
  | Event.Key Key.Up => false
  | Event.Key Key.Down => false
  | Event.Key (Key.Char c) => c != 'r' && c != 'q' && c != '\n'
  | _ => true

/-- Events the EnteringPassword vocabulary does not recognize: everything
other than Esc and character keys (Enter arrives as the character `'\n'`). -/
def pwd_unrecognized (ev : Event) : Bool :=
  match ev with
  | Event.Key Key.Esc => false
  | Event.Key (Key.Char _) => false
  | _ => true

/-- The abstract terminal: its raw-mode flag and the visible screen text. -/
structure TermState where
  raw_mode : Bool
  screen : String
deriving DecidableEq

/-- Success/failure oracle for the four fallible terminal operations that
`fn clear_and_write` performs, in source order. -/
structure TermOps where
  suspend_ok : Bool
  write_ok : Bool
  flush_ok : Bool
  activate_ok : Bool
deriving DecidableEq

/-- `fn clear_and_write`: suspend raw mode, write (clear + goto origin +
contents), flush, re-activate raw mode, each followed by `?`.  The second
component is `some msg` when an error propagates to the caller via `?`, and
the first component is the terminal state at that moment. -/
def clear_and_write (ops : TermOps) (t : TermState) (contents : String) :
    TermState × Option String :=
  if !ops.suspend_ok then (t, some "suspend_raw_mode failed")
  else
    let t1 : TermState := { t with raw_mode := false }
    if !ops.write_ok then (t1, some "write failed")
    else
      let t2 : TermState := { t1 with screen := contents }
      if !ops.flush_ok then (t2, some "flush failed")
      else if !ops.activate_ok then (t2, some "activate_raw_mode failed")
      else ({ t2 with raw_mode := true }, none)

/-- Is `b` a UTF-8 continuation byte (`0x80..0xBF`)? -/
def isCont (b : Nat) : Bool := 0x80 ≤ b && b < 0xC0

/-- Strict UTF-8 decoder over a byte list, with the exact validity rules of
Rust's `String::from_utf8` (RFC 3629: shortest form only, no surrogates,
code points at most `0x10FFFF`); `none` on any invalid sequence. -/
def decodeUTF8 : List Nat → Option (List Char)
  | [] => some []
  | b :: bs =>
    if b < 0x80 then
      match decodeUTF8 bs with
      | some cs => some (Char.ofNat b :: cs)
      | none => none
    else if b < 0xC2 then none
    else if b < 0xE0 then
      match bs with
      | b1 :: bs1 =>
        if isCont b1 then
          match decodeUTF8 bs1 with
          | some cs => some (Char.ofNat ((b - 0xC0) * 0x40 + (b1 - 0x80)) :: cs)
          | none => none
        else none
      | [] => none
    else if b < 0xF0 then
      match bs with
      | b1 :: b2 :: bs2 =>
        if isCont b1 && isCont b2 && (b != 0xE0 || 0xA0 ≤ b1) && (b != 0xED || b1 < 0xA0) then
          match decodeUTF8 bs2 with
          | some cs =>
              some (Char.ofNat ((b - 0xE0) * 0x1000 + (b1 - 0x80) * 0x40 + (b2 - 0x80)) :: cs)
          | none => none
        else none
      | _ => none
    else if b < 0xF5 then
      match bs with
      | b1 :: b2 :: b3 :: bs3 =>
        if isCont b1 && isCont b2 && isCont b3 && (b != 0xF0 || 0x90 ≤ b1) && (b != 0xF4 || b1 < 0x90) then
          match decodeUTF8 bs3 with
          | some cs =>
              some (Char.ofNat ((b - 0xF0) * 0x40000 + (b1 - 0x80) * 0x1000
                      + (b2 - 0x80) * 0x40 + (b3 - 0x80)) :: cs)
          | none => none
        else none
      | _ => none
    else none

/-- Rust `String::from_utf8` with the error case as `none`. -/
def rustFromUtf8 (bs : List Nat) : Option String :=
  (decodeUTF8 bs).map String.mk

/-- UTF-8 bytes of an ASCII string, for building concrete command outputs. -/
def asciiBytes (s : String) : List Nat := s.data.map Char.toNat

/-- Captured output of a finished external command (`std::process::Output`):
exit-status success flag, stdout bytes, stderr bytes. -/
structure CmdOutput where
  success : Bool
  stdout : List Nat
  stderr : List Nat
deriving DecidableEq

/-- Result of running a piece of Rust code that may return a value, return an
error, or panic. `fatal` models a panic aborting the process. -/
inductive RunResult (ε α : Type) where
  | ok (a : α)
  | err (e : ε)
  | fatal (msg : String)
deriving DecidableEq

/-- The panic message produced by `unwrap` on a UTF-8 decoding `Err`. -/
def unwrapUtf8Msg : String := "called unwrap on a FromUtf8Error"

/-- `enum AuthError`. -/
inductive AuthError where
  | Program (e : String)
  | Command (s : String)
deriving DecidableEq

/-- `fn wifi_list`: run the external listing command (its launch outcome is
the argument: `Except.error` models `Command::output()` failing, propagated by
`?` as `RunResult.err`), then `String::from_utf8(output.stdout).unwrap()` —
the exit status is never inspected, and invalid UTF-8 panics. -/
def wifi_list (launch : Except String CmdOutput) : RunResult String String :=
  match launch with
  | Except.error e => RunResult.err e
  | Except.ok out =>
      match rustFromUtf8 out.stdout with
      | some s => RunResult.ok s
      | none => RunResult.fatal unwrapUtf8Msg

/-- `fn authenticate`: a launch failure maps to `AuthError::Program`; a
launched command is classified by exit status — success decodes stdout with
`unwrap` (panic on invalid UTF-8) into `Ok`, failure decodes stderr with
`unwrap` into `Err(AuthError::Command(..))`. -/
def authenticate (launch : Except String CmdOutput) : RunResult AuthError String :=
  match launch with
  | Except.error e => RunResult.err (AuthError.Program e)
  | Except.ok out =>
      if out.success then
        match rustFromUtf8 out.stdout with
        | some s => RunResult.ok s
        | none => RunResult.fatal unwrapUtf8Msg
      else
        match rustFromUtf8 out.stderr with
        | some s => RunResult.err (AuthError.Command s)
        | none => RunResult.fatal unwrapUtf8Msg

/-- A two-network listing in the format of the spec's worked example. -/
def listing2 : String := "HEADER\nAA:BB SSID_ONE more cols\nCC:DD SSID_TWO\n"

/-- A one-network listing: the same format, a single data line. -/
def listing1 : String := "HEADER\nAA:BB SSID_ONE more cols\n"

/-- A listing with one header line and 257 data lines. -/
def bigListing : String := "HEADER\n" ++ String.join (List.replicate 257 "AA:BB SSID_BIG x\n")

theorem countU8_foldl (l : List String) (acc : Nat) (h : acc < 256) :
    l.foldl (fun a _ => (a + 1) % 256) acc = (acc + l.length) % 256 := by
  induction l generalizing acc with
  | nil => simpa using (Nat.mod_eq_of_lt h).symm
  | cons a l ih =>
      simp only [List.foldl_cons, List.length_cons]
      rw [ih ((acc + 1) % 256) (Nat.mod_lt _ (by omega))]
      omega

theorem countU8_eq (l : List String) : countU8 l = l.length % 256 := by
  simpa [countU8] using countU8_foldl l 0 (by omega)

theorem match_evt_down_eq (s : String) (pos : Nat) :
    match_evt (Event.Key Key.Down) s pos =
      (Response.Continue, move_down pos ((rustLines s).drop 1).length) := by
  simp only [match_evt, down_bound, countU8_eq, move_down]

theorem move_down_small (pos n : Nat) (h1 : pos < n) (h2 : n ≤ 255) :
    move_down pos n = Nat.min (pos + 1) (n - 1) := by
  unfold move_down
  have ha : (pos + 1) % 256 = pos + 1 := Nat.mod_eq_of_lt (by omega)
  have hb : (n % 256 + 255) % 256 = n - 1 := by omega
  rw [ha, hb]

theorem move_down_iterate (n : Nat) (h2 : n ≤ 255) (k pos : Nat) (h1 : pos < n) :
    (fun p => move_down p n)^[k] pos = Nat.min (pos + k) (n - 1) := by
  induction k generalizing pos with
  | zero =>
      simp only [Function.iterate_zero, id_eq, Nat.min_def]
      split_ifs <;> omega
  | succ k ih =>
      rw [Function.iterate_succ_apply]
      show (fun p => move_down p n)^[k] (move_down pos n) = _
      rw [move_down_small pos n h1 h2,
        ih (Nat.min (pos + 1) (n - 1)) (by simp only [Nat.min_def]; split_ifs <;> omega)]
      simp only [Nat.min_def]
      split_ifs <;> omega

/-- C1: for the listing output
`"HEADER\nAA:BB SSID_ONE more cols\nCC:DD SSID_TWO\n"`, `get_ssids` does NOT
yield `["SSID_ONE", "SSID_TWO"]`: the source slices each data line at byte
offset 8, which in this example is two bytes past the start of the SSID
field. -/
theorem C1_cex_example_output :
    get_ssids "HEADER\nAA:BB SSID_ONE more cols\nCC:DD SSID_TWO\n" ≠
      some ["SSID_ONE", "SSID_TWO"] := by decide

/-- C1 (amended): on that listing output, `get_ssids` yields exactly
`["ID_ONE", "ID_TWO"]` in that order — the whitespace-delimited tokens
starting at byte offset 8 of each data line. -/
theorem C1_amended_offset8_tokens :
    get_ssids "HEADER\nAA:BB SSID_ONE more cols\nCC:DD SSID_TWO\n" =
      some ["ID_ONE", "ID_TWO"] := by decide

/-- C2: the selection-index invariant is NOT preserved by the main loop.
Starting from a 2-entry listing, Down moves the index to 1 and the same
iteration's refresh replaces the list with a 1-entry listing; Enter then
evaluates `get_ssids(&wifi_list)[1]` on a 1-element `Vec`, an out-of-bounds
panic (`none`). -/
theorem C2_stale_index_out_of_bounds :
    get_ssids listing2 = some ["ID_ONE", "ID_TWO"] ∧
    get_ssids listing1 = some ["ID_ONE"] ∧
    (step (initState listing2) (Event.Key Key.Down) listing1).bind
      (fun s1 => step s1 (Event.Key (Key.Char '\n')) listing1) = none := by decide

/-- C3: with an empty network list (listing `"HEADER\n"`, zero data lines)
the Down arrow is NOT a no-op: the `u8` bound computation `count - 1`
wraps to 255 (it would panic in a debug build), so Down moves the index
from 0 to 1 on an empty list. -/
theorem C3_down_on_empty_list_not_noop :
    get_ssids "HEADER\n" = some [] ∧
    down_bound "HEADER\n" = 255 ∧
    match_evt (Event.Key Key.Down) "HEADER\n" 0 = (Response.Continue, 1) := by decide

/-- C4: `clear_and_write` does NOT restore raw mode on error paths: when the
write fails after the suspend, the error propagates via `?` with the raw-mode
flag still false; on the all-success path raw mode is restored. -/
theorem C4_raw_mode_leaked_on_write_error :
    clear_and_write ⟨true, false, true, true⟩ ⟨true, "old"⟩ "new" =
      (⟨false, "old"⟩, some "write failed") ∧
    clear_and_write ⟨true, true, false, true⟩ ⟨true, "old"⟩ "new" =
      (⟨false, "new"⟩, some "flush failed") ∧
    clear_and_write ⟨true, true, true, true⟩ ⟨true, "old"⟩ "new" =
      (⟨true, "new"⟩, none) := by decide

/-- C5: an unrecognized event in Browsing is NOT free of re-rendering: the
catch-all arm of `match_evt` returns `Response::Continue`, so the main loop
performs a refresh — a fresh scan replaces the current list (and a full
clear-and-write repaint happens inside `refresh`). -/
theorem C5_cex_unrecognized_triggers_refresh :
    browse_unrecognized (Event.Key (Key.Char 'x')) = true ∧
    step (initState listing2) (Event.Key (Key.Char 'x')) listing1 =
      some { initState listing2 with wifi_list := listing1 } ∧
    (initState listing2).wifi_list ≠ listing1 := by decide

/-- C5 (amended): an unrecognized event leaves the phase, selection index,
partial password and chosen ssid unchanged; in Browsing it nevertheless
triggers a refresh (the current list is replaced by a fresh scan and
re-rendered), while in EnteringPassword the whole state is unchanged. -/
theorem C5_amended_unrecognized_keeps_state (s : MainState) (ev : Event)
    (scan : String) (hdone : s.done = false) :
    (s.phase = 0 → browse_unrecognized ev = true →
      step s ev scan = some { s with wifi_list := scan }) ∧
    (s.phase = 1 → pwd_unrecognized ev = true → step s ev scan = some s) := by
  constructor
  · intro h0 hu
    have hme : match_evt ev s.wifi_list s.selector_pos =
        (Response.Continue, s.selector_pos) := by
      cases ev with
      | Other => rfl
      | Key k =>
        cases k with
        | Up => simp [browse_unrecognized] at hu
        | Down => simp [browse_unrecognized] at hu
        | Esc => rfl
        | Other => rfl
        | Char c =>
          simp only [browse_unrecognized, Bool.and_eq_true, bne_iff_ne, ne_eq] at hu
          obtain ⟨⟨h1, h2⟩, h3⟩ := hu
          simp [match_evt, h1, h2, h3]
    simp [step, hdone, h0, hme]
  · intro h1 hu
    have h0 : s.phase ≠ 0 := by omega
    cases ev with
    | Other => simp [step, hdone, h0, h1]
    | Key k =>
      cases k with
      | Esc => simp [pwd_unrecognized] at hu
      | Char c => simp [pwd_unrecognized] at hu
      | Up => simp [step, hdone, h0, h1]
      | Down => simp [step, hdone, h0, h1]
      | Other => simp [step, hdone, h0, h1]

/-- C5 (amended) witness: a `'x'` key in Browsing keeps index, phase and
password but swaps in the fresh scan; an Up key in EnteringPassword leaves
the state fully unchanged. -/
theorem C5_amended_unrecognized_keeps_state_witness :
    step (initState listing2) (Event.Key (Key.Char 'z')) listing1 =
      some { initState listing2 with wifi_list := listing1 } ∧
    step { initState listing2 with phase := 1 } (Event.Key Key.Up) listing1 =
      some { initState listing2 with phase := 1 } :=
  ⟨(C5_amended_unrecognized_keeps_state (initState listing2)
      (Event.Key (Key.Char 'z')) listing1 rfl).1 rfl (by decide),
   (C5_amended_unrecognized_keeps_state { initState listing2 with phase := 1 }
      (Event.Key Key.Up) listing1 rfl).2 rfl (by decide)⟩

/-- C6: the claim fails at `L = 256`: the `u8` increment wraps, so from index
255 one Down step yields 0, and `L - 1 = 255` is not a fixed point of
`move_down` — repeated application cannot converge to it. -/
theorem C6_cex_L256_not_fixed_point :
    move_down 255 256 = 0 ∧ move_down 255 256 ≠ 256 - 1 := by decide

/-- C6 (amended): for every non-empty list of length `L ≤ 255` and every
starting index `i < L`, one Down step stays strictly below `L`, `L - 1` is a
fixed point, and `L - 1` Down steps reach it from any start. -/
theorem C6_amended_clamped_convergence (n pos : Nat) (h1 : pos < n)
    (h2 : n ≤ 255) :
    move_down pos n < n ∧
    move_down (n - 1) n = n - 1 ∧
    (fun p => move_down p n)^[n - 1] pos = n - 1 := by
  refine ⟨?_, ?_, ?_⟩
  · rw [move_down_small pos n h1 h2]
    simp only [Nat.min_def]
    split_ifs <;> omega
  · rw [move_down_small (n - 1) n (by omega) h2]
    simp only [Nat.min_def]
    split_ifs <;> omega
  · rw [move_down_iterate n h2 (n - 1) pos h1]
    simp only [Nat.min_def]
    split_ifs <;> omega

/-- C6 (amended) witness at `L = 3`, start 0. -/
theorem C6_amended_clamped_convergence_witness :
    (0 < 3 ∧ 3 ≤ 255) ∧ move_down 0 3 < 3 ∧ move_down 2 3 = 2 ∧
      (fun p => move_down p 3)^[2] 0 = 2 :=
  ⟨⟨by decide, by decide⟩,
   (C6_amended_clamped_convergence 3 0 (by decide) (by decide)).1,
   (C6_amended_clamped_convergence 3 0 (by decide) (by decide)).2.1,
   (C6_amended_clamped_convergence 3 0 (by decide) (by decide)).2.2⟩

/-- C7: a data line shorter than 8 bytes does NOT produce a parse-failure
error: the byte slice `l[8..]` panics (`none`), aborting the program, and the
listing is neither skipped nor reported — even when a well-formed line
follows. -/
theorem C7_short_line_panics_not_error :
    utf8Len ("SHORT".data) < 8 ∧
    parse_ssid "SHORT" = none ∧
    get_ssids "HEADER\nSHORT\nCC:DD SSID_TWO\n" = none := by decide

/-- C8: invalid UTF-8 in a command's output is NOT propagated as an error:
`String::from_utf8(..).unwrap()` panics (process abort, `RunResult.fatal`)
in `wifi_list` and in both branches of `authenticate`. -/
theorem C8_invalid_utf8_panics_not_error :
    rustFromUtf8 [0xFF] = none ∧
    wifi_list (Except.ok ⟨true, [0xFF], []⟩) = RunResult.fatal unwrapUtf8Msg ∧
    authenticate (Except.ok ⟨true, [0xFF], []⟩) = RunResult.fatal unwrapUtf8Msg ∧
    authenticate (Except.ok ⟨false, [], [0xFF]⟩) = RunResult.fatal unwrapUtf8Msg := by
  decide

/-- C9: `authenticate` classifies purely by exit status — zero exit returns
`Ok` with the decoded stdout, non-zero exit returns `Err(AuthError::Command)`
with the decoded stderr, and a failure to launch the command at all returns
the distinct `Err(AuthError::Program)`. -/
theorem C9_authenticate_classifies_by_status (out : CmdOutput) (so se e : String)
    (hso : rustFromUtf8 out.stdout = some so)
    (hse : rustFromUtf8 out.stderr = some se) :
    (out.success = true → authenticate (Except.ok out) = RunResult.ok so) ∧
    (out.success = false →
      authenticate (Except.ok out) = RunResult.err (AuthError.Command se)) ∧
    authenticate (Except.error e) = RunResult.err (AuthError.Program e) := by
  refine ⟨fun hs => ?_, fun hs => ?_, rfl⟩
  · simp [authenticate, hs, hso]
  · simp [authenticate, hs, hse]

/-- C9 witness: concrete runs with ASCII stdout/stderr and a launch failure. -/
theorem C9_authenticate_classifies_by_status_witness :
    authenticate (Except.ok ⟨true, asciiBytes "Connected.\n", asciiBytes ""⟩) =
      RunResult.ok "Connected.\n" ∧
    authenticate
        (Except.ok ⟨false, asciiBytes "", asciiBytes "Secrets were required.\n"⟩) =
      RunResult.err (AuthError.Command "Secrets were required.\n") ∧
    authenticate (Except.error "launch failed") =
      RunResult.err (AuthError.Program "launch failed") :=
  ⟨(C9_authenticate_classifies_by_status
      ⟨true, asciiBytes "Connected.\n", asciiBytes ""⟩
      "Connected.\n" "" "launch failed" (by decide) (by decide)).1 rfl,
   (C9_authenticate_classifies_by_status
      ⟨false, asciiBytes "", asciiBytes "Secrets were required.\n"⟩
      "" "Secrets were required.\n" "launch failed" (by decide) (by decide)).2.1 rfl,
   (C9_authenticate_classifies_by_status
      ⟨false, asciiBytes "", asciiBytes "Secrets were required.\n"⟩
      "" "Secrets were required.\n" "launch failed" (by decide) (by decide)).2.2⟩

/-- C10: the Down-arrow bound accumulates in a `u8`, so for a listing with
more than 256 data lines the count is taken mod 2^8; the resulting index is
always below 256, and when the count is `256k + 1` (e.g. 257 data lines) the
bound wraps to 0 and Down pins the index to 0 — navigation over the oversized
list is incorrect. -/
theorem C10_down_bound_overflows_mod_256 (s : String)
    (_h : 256 < ((rustLines s).drop 1).length) :
    down_bound s = (((rustLines s).drop 1).length % 256 + 255) % 256 ∧
    (∀ pos : Nat, (match_evt (Event.Key Key.Down) s pos).2 < 256) ∧
    (((rustLines s).drop 1).length % 256 = 1 →
      ∀ pos : Nat, (match_evt (Event.Key Key.Down) s pos).2 = 0) := by
  refine ⟨?_, fun pos => ?_, fun h1 pos => ?_⟩
  · simp [down_bound, countU8_eq]
  · rw [match_evt_down_eq]
    show move_down pos _ < 256
    unfold move_down
    simp only [Nat.min_def]
    split_ifs <;> omega
  · rw [match_evt_down_eq]
    show move_down pos (((rustLines s).drop 1).length) = 0
    unfold move_down
    simp only [Nat.min_def]
    split_ifs <;> omega

set_option maxRecDepth 1000000

/-- C10 witness: a listing with 257 data lines has a wrapped bound of 0 and
Down pins any index to 0. -/
theorem C10_down_bound_overflows_mod_256_witness :
    256 < ((rustLines bigListing).drop 1).length ∧
    down_bound bigListing = 0 ∧
    (match_evt (Event.Key Key.Down) bigListing 7).2 = 0 :=
  ⟨by decide,
   ((C10_down_bound_overflows_mod_256 bigListing (by decide)).1).trans (by decide),
   (C10_down_bound_overflows_mod_256 bigListing (by decide)).2.2 (by decide) 7⟩
